import Mathlib

/-!
Verification of the aggregation/caching core of `src/server.js`:
the JS value model, the sanitizer, the value-pool reconciler
(`extractValuePools`), the single-flight price cache
(`getCachedPriceData` and the settlement of its fetch promise), and the
`/api/status` handler.  JS numbers are modelled as exact rationals
extended with NaN and the two infinities; finite arithmetic is exact
(rounding of IEEE doubles is not modelled, none of the proved
properties depends on it).
-/

namespace ZecTotem

/-- Addition on exact rationals through `mkRat`, which normalizes; used
instead of `Rat.add` so that concrete values reduce inside the kernel. -/
def qAdd (a b : ℚ) : ℚ :=
  mkRat (a.num * (b.den : ℤ) + b.num * (a.den : ℤ)) (a.den * b.den)

/-- Negation on exact rationals through `mkRat`. -/
def qNeg (a : ℚ) : ℚ := mkRat (-a.num) a.den

/-- A JavaScript number: NaN, +Infinity, -Infinity, or a finite value
(modelled as an exact rational). -/
inductive JSNum where
  | nan : JSNum
  | posInf : JSNum
  | negInf : JSNum
  | fin : ℚ → JSNum
deriving DecidableEq, Repr

/-- JS `Number.isFinite`. -/
def JSNum.isFinite : JSNum → Bool
  | .fin _ => true
  | _ => false

/-- Negation of a JS number. -/
def JSNum.neg : JSNum → JSNum
  | .nan => .nan
  | .posInf => .negInf
  | .negInf => .posInf
  | .fin q => .fin (qNeg q)

/-- JS `+` on numbers (NaN propagates, opposite infinities give NaN). -/
def JSNum.add : JSNum → JSNum → JSNum
  | .nan, _ => .nan
  | _, .nan => .nan
  | .posInf, .negInf => .nan
  | .negInf, .posInf => .nan
  | .posInf, _ => .posInf
  | _, .posInf => .posInf
  | .negInf, _ => .negInf
  | _, .negInf => .negInf
  | .fin a, .fin b => .fin (qAdd a b)

/-- JS `-` on numbers. -/
def JSNum.sub (a b : JSNum) : JSNum := a.add b.neg

/-- JS `<=` on numbers (any comparison with NaN is false). -/
def JSNum.le : JSNum → JSNum → Bool
  | .nan, _ => false
  | _, .nan => false
  | .negInf, _ => true
  | _, .posInf => true
  | .posInf, _ => false
  | _, .negInf => false
  | .fin a, .fin b => decide (a ≤ b)

/-- JS `<` on numbers (any comparison with NaN is false). -/
def JSNum.lt : JSNum → JSNum → Bool
  | .nan, _ => false
  | _, .nan => false
  | _, .negInf => false
  | .negInf, _ => true
  | .posInf, _ => false
  | _, .posInf => true
  | .fin a, .fin b => decide (a < b)

/-- A JS number is falsy exactly when it is `0` or `NaN`. -/
def jsNumFalsy : JSNum → Bool
  | .nan => true
  | .fin q => decide (q = 0)
  | _ => false

/-- Whitespace characters recognized when trimming a numeric string. -/
def isJsSpaceChar (c : Char) : Bool :=
  c = ' ' || c = '\t' || c = '\n' || c = '\r'

/-- Trim leading and trailing whitespace from a character list. -/
def trimChars (cs : List Char) : List Char :=
  ((cs.dropWhile isJsSpaceChar).reverse.dropWhile isJsSpaceChar).reverse

/-- Split a character list at separators. -/
def splitOnChar (sep : Char → Bool) : List Char → List (List Char)
  | [] => [[]]
  | c :: rest =>
    match splitOnChar sep rest with
    | [] => [[]]
    | g :: gs => if sep c then [] :: g :: gs else (c :: g) :: gs

/-- Digit list to natural number. -/
def digitsToNat (cs : List Char) : Nat :=
  cs.foldl (fun a c => a * 10 + (c.toNat - 48)) 0

/-- All characters are decimal digits. -/
def allDigits (cs : List Char) : Bool :=
  cs.all Char.isDigit

/-- Mantissa of a decimal numeric literal: `digits`, `digits.digits`,
`digits.` or `.digits`. -/
def parseMantissa (cs : List Char) : Option ℚ :=
  match splitOnChar (fun c => c = '.') cs with
  | [i] =>
    if i ≠ [] && allDigits i then some (mkRat (digitsToNat i) 1) else none
  | [i, f] =>
    if (i ≠ [] || f ≠ []) && allDigits i && allDigits f then
      some (mkRat (digitsToNat i * 10 ^ f.length + digitsToNat f) (10 ^ f.length))
    else none
  | _ => none

/-- Exponent part of a decimal numeric literal: optional sign and digits. -/
def parseExpPart (cs : List Char) : Option ℤ :=
  let neg := cs.head? = some '-'
  let b := if cs.head? = some '-' || cs.head? = some '+' then cs.tail else cs
  if b ≠ [] && allDigits b then
    some (if neg then -(digitsToNat b : ℤ) else (digitsToNat b : ℤ))
  else none

/-- Scale a rational by an integer power of ten. -/
def qMulPow10 (q : ℚ) (n : ℤ) : ℚ :=
  match n with
  | Int.ofNat k => mkRat (q.num * (10 ^ k : ℕ)) q.den
  | Int.negSucc k => mkRat q.num (q.den * 10 ^ (k + 1))

/-- Decimal numeric literal with optional exponent. -/
def parseDecimal (cs : List Char) : Option ℚ :=
  match splitOnChar (fun c => c = 'e' || c = 'E') cs with
  | [m] => parseMantissa m
  | [m, ex] =>
    match parseMantissa m, parseExpPart ex with
    | some q, some n => some (qMulPow10 q n)
    | _, _ => none
  | _ => none

/-- The ECMAScript string-to-number conversion, restricted to its
decimal core: trimmed whitespace, empty string is `0`, optional sign,
`Infinity`, decimal literal with optional exponent; anything else is
NaN (hexadecimal and other exotic literal forms are not modelled). -/
def jsStrToNum (s : String) : JSNum :=
  match trimChars s.toList with
  | [] => .fin 0
  | t =>
    let neg := t.head? = some '-'
    let body := if t.head? = some '-' || t.head? = some '+' then t.tail else t
    if body = "Infinity".toList then (if neg then .negInf else .posInf)
    else
      match parseDecimal body with
      | some q => .fin (if neg then qNeg q else q)
      | none => .nan

/-- A JavaScript value as delivered by a parsed-JSON upstream
(plus `undefined`, which arises from property accesses). -/
inductive JSValue where
  | undefined : JSValue
  | null : JSValue
  | bool : Bool → JSValue
  | num : JSNum → JSValue
  | str : String → JSValue
  | arr : List JSValue → JSValue
  | obj : List (String × JSValue) → JSValue

/-- JS truthiness. -/
def truthy : JSValue → Bool
  | .undefined => false
  | .null => false
  | .bool b => b
  | .num n => !(jsNumFalsy n)
  | .str s => s ≠ ""
  | .arr _ => true
  | .obj _ => true

/-- First field of an object with the given key, `undefined` if absent. -/
def lookupField : List (String × JSValue) → String → JSValue
  | [], _ => .undefined
  | (k', v) :: rest, k => if k' = k then v else lookupField rest k

/-- JS property access `v.k`: throws a TypeError on `null`/`undefined`,
otherwise yields the field (or `undefined`); arrays and strings expose
`length`. -/
def getProp : JSValue → String → Except String JSValue
  | .null, k => .error ("TypeError: cannot read " ++ k ++ " of null")
  | .undefined, k => .error ("TypeError: cannot read " ++ k ++ " of undefined")
  | .obj fs, k => .ok (lookupField fs k)
  | .arr xs, k => .ok (if k = "length" then .num (.fin (xs.length : ℚ)) else .undefined)
  | .str s, k => .ok (if k = "length" then .num (.fin (s.length : ℚ)) else .undefined)
  | _, _ => .ok .undefined

/-- JS optional chaining `v?.k`: `undefined` on `null`/`undefined`,
the plain property access otherwise. -/
def optGetProp (v : JSValue) (k : String) : JSValue :=
  match v with
  | .null => .undefined
  | .undefined => .undefined
  | .bool _ => .undefined
  | .num _ => .undefined
  | .str s => if k = "length" then .num (.fin (s.length : ℚ)) else .undefined
  | .arr xs => if k = "length" then .num (.fin (xs.length : ℚ)) else .undefined
  | .obj fs => lookupField fs k

/-- JS nullish coalescing `a ?? b`. -/
def jsNullish (a b : JSValue) : JSValue :=
  match a with
  | .null => b
  | .undefined => b
  | v => v

/-- JS `Number(value)` coercion.  Array-to-primitive is modelled for
the flat cases (`[]`, one number, one string, one `null`); other
arrays and all plain objects coerce to NaN. -/
def jsToNumber : JSValue → JSNum
  | .undefined => .nan
  | .null => .fin 0
  | .bool b => .fin (if b then 1 else 0)
  | .num n => n
  | .str s => jsStrToNum s
  | .arr [] => .fin 0
  | .arr [JSValue.num n] => n
  | .arr [JSValue.str s] => jsStrToNum s
  | .arr [JSValue.null] => .fin 0
  | .arr _ => .nan
  | .obj _ => .nan

/-- Function `sanitizeNumber` from `src/server.js` lines 195-199: `null` and
`undefined` map to `null`; a number is kept as-is, anything else is
coerced with `Number(...)`; the result is the number when finite and
`null` otherwise. -/
def sanitizeNumber (value : JSValue) : JSValue :=
  match value with
  | .null => .null
  | .undefined => .null
  | .num n => if n.isFinite then .num n else .null
  | v =>
    let num := jsToNumber v
    if num.isFinite then .num num else .null

/-- A snapshot field obeying the "finite number or null" contract. -/
def finiteOrNull : JSValue → Bool
  | .null => true
  | .num n => n.isFinite
  | _ => false

/-! ## Value pool reconciler (`extractValuePools`, `src/server.js` 75-110) -/

/-- Source expression `Array.isArray(info?.valuePools) ? info.valuePools : []`. -/
def poolsOf (info : JSValue) : List JSValue :=
  match optGetProp info "valuePools" with
  | JSValue.arr xs => xs
  | _ => []

/-- Source expression `vp.find((p) => p.id === id)`: the access `p.id` throws on a
nullish element; strict equality against the string `id`. -/
def jsFind : List JSValue → String → Except String (Option JSValue)
  | [], _ => .ok none
  | p :: rest, id =>
    match getProp p "id" with
    | .error e => .error e
    | .ok (JSValue.str s) => if s = id then .ok (some p) else jsFind rest id
    | .ok _ => jsFind rest id

/-- Source expression `Number(vp.find((p) => p.id === id)?.chainValue ?? 0)`. -/
def findPool (vp : List JSValue) (id : String) : Except String JSNum :=
  match jsFind vp id with
  | .error e => .error e
  | .ok found =>
    let cv := match found with
      | some p => optGetProp p "chainValue"
      | none => JSValue.undefined
    .ok (jsToNumber (jsNullish cv (JSValue.num (JSNum.fin 0))))

/-- The record returned by `extractValuePools`. -/
structure ValuePools where
  transparent : JSNum
  sprout : JSNum
  sapling : JSNum
  orchard : JSNum
  lockbox : JSNum
  shielded : JSNum
  totalChain : JSNum
deriving DecidableEq, Repr

/-- Source line `const shielded = sprout + sapling + orchard` (left associated). -/
def shieldedOf (sprout sapling orchard : JSNum) : JSNum :=
  (sprout.add sapling).add orchard

/-- Source line `const totalFromInfo = transparent + shielded + lockbox`. -/
def totalFromInfoOf (t sp sa orc lb : JSNum) : JSNum :=
  (t.add (shieldedOf sp sa orc)).add lb

/-- Source expression `Number.isFinite(circulatingSupply) && circulatingSupply > 0 ?
circulatingSupply : totalFromInfo`. -/
def totalChainOf (t sp sa orc lb : JSNum) (circ : JSValue) : JSNum :=
  match circ with
  | JSValue.num (JSNum.fin q) =>
    if 0 < q then JSNum.fin q else totalFromInfoOf t sp sa orc lb
  | _ => totalFromInfoOf t sp sa orc lb

/-- Source line `const inferred = totalChain - shielded - lockbox`. -/
def inferredOf (t sp sa orc lb : JSNum) (circ : JSValue) : JSNum :=
  ((totalChainOf t sp sa orc lb circ).sub (shieldedOf sp sa orc)).sub lb

/-- The inference branch on `transparent` (`src/server.js` 92-97):
when `(!transparent || transparent <= 0) && Number.isFinite(totalChain)`,
replace it by `totalChain - shielded - lockbox` if that is finite and
strictly positive. -/
def inferTransparent (t sp sa orc lb : JSNum) (circ : JSValue) : JSNum :=
  if (jsNumFalsy t || JSNum.le t (JSNum.fin 0)) &&
      (totalChainOf t sp sa orc lb circ).isFinite then
    if (inferredOf t sp sa orc lb circ).isFinite &&
        JSNum.lt (JSNum.fin 0) (inferredOf t sp sa orc lb circ) then
      inferredOf t sp sa orc lb circ
    else t
  else t

/-- Source line `transparent = sanitizeNumber(transparent) ?? 0` applied after the
inference branch. -/
def sanitizedTransparent (t sp sa orc lb : JSNum) (circ : JSValue) : JSNum :=
  match sanitizeNumber (JSValue.num (inferTransparent t sp sa orc lb circ)) with
  | JSValue.num n => n
  | _ => JSNum.fin 0

/-- The pure arithmetic part of `extractValuePools` applied to the
five extracted pool values and the circulating-supply argument. -/
def reconcileNums (t sp sa orc lb : JSNum) (circ : JSValue) : ValuePools :=
  { transparent := sanitizedTransparent t sp sa orc lb circ
    sprout := sp
    sapling := sa
    orchard := orc
    lockbox := lb
    shielded := shieldedOf sp sa orc
    totalChain := totalChainOf t sp sa orc lb circ }

/-- Function `extractValuePools(info, circulatingSupply)` from `src/server.js`
75-110; the five `find(...)` calls evaluate in source order and the
first thrown TypeError propagates. -/
def extractValuePools (info circ : JSValue) : Except String ValuePools :=
  let vp := poolsOf info
  match findPool vp "transparent", findPool vp "sprout", findPool vp "sapling",
        findPool vp "orchard", findPool vp "lockbox" with
  | .ok t, .ok sp, .ok sa, .ok orc, .ok lb =>
    .ok (reconcileNums t sp sa orc lb circ)
  | .error e, _, _, _, _ => .error e
  | _, .error e, _, _, _ => .error e
  | _, _, .error e, _, _ => .error e
  | _, _, _, .error e, _ => .error e
  | _, _, _, _, .error e => .error e

/-! ## Price cache (`priceCache` / `getCachedPriceData`, `src/server.js` 38-73)

Cooperative single-threaded concurrency: `getCachedPriceData` runs
atomically up to its first suspension point (it sets
`priceCache.promise` before returning), so a run of the system is an
interleaving of atomic call steps and one settlement step per fetch.
`waiters` counts the callers currently attached to the in-flight
promise; every one of them receives the single settlement value
computed by `priceFetchSettle`. -/

/-- The mutable cache entry.  `data`/`fetchedAt`/`promise` mirror the
fields of the `priceCache` object (the promise is tracked as a flag
plus the waiter count). -/
structure PriceCache where
  data : JSValue
  fetchedAt : Nat
  promise : Bool
  waiters : Nat

/-- Initial state: data null, fetchedAt 0, no promise, no waiters. -/
def initialPriceCache : PriceCache :=
  { data := JSValue.null, fetchedAt := 0, promise := false, waiters := 0 }

/-- What a caller of `getCachedPriceData` obtains: an immediately
resolved value (fresh hit) or attachment to the in-flight promise. -/
inductive CallResult where
  | value : JSValue → CallResult
  | attached : CallResult

/-- One synchronous invocation of `getCachedPriceData` at time `now`:
fresh truthy data is returned at once; otherwise the caller attaches
to an existing in-flight promise, or starts a fetch (third component:
whether an upstream request was issued). -/
def getCachedPriceData (ttl now : Nat) (c : PriceCache) :
    PriceCache × CallResult × Bool :=
  if truthy c.data ∧ now - c.fetchedAt ≤ ttl then
    (c, CallResult.value c.data, false)
  else if c.promise then
    ({ c with waiters := c.waiters + 1 }, CallResult.attached, false)
  else
    ({ c with promise := true, waiters := c.waiters + 1 }, CallResult.attached, true)

/-- Settlement of the in-flight fetch at time `now` (the
`.then/.catch/.finally` chain of lines 54-69): success stores the
fresh value and timestamp; failure with truthy stored data returns the
stored data (timestamp untouched); failure otherwise propagates the
error.  The returned `Except` is the settlement every attached waiter
receives. -/
def priceFetchSettle (now : Nat) (result : Except String JSValue)
    (c : PriceCache) : PriceCache × Except String JSValue :=
  match result with
  | .ok fresh =>
    ({ data := fresh, fetchedAt := now, promise := false, waiters := 0 }, .ok fresh)
  | .error err =>
    if truthy c.data then
      ({ c with promise := false, waiters := 0 }, .ok c.data)
    else
      ({ c with promise := false, waiters := 0 }, .error err)

/-- The single settlement value every waiter receives when the
in-flight fetch completes against a cache whose stored data is
truthy: the fresh value on success, the stored value on failure. -/
def settledValue (res : Except String JSValue) (stored : JSValue) : JSValue :=
  match res with
  | .ok v => v
  | .error _ => stored

/-- Runs `n` back-to-back invocations of `getCachedPriceData` with no
intervening settlement (concurrent callers under cooperative
scheduling).  Returns the final cache state, the number of upstream
requests issued, and each caller's result in order. -/
def priceCalls (ttl now : Nat) : Nat → PriceCache → PriceCache × Nat × List CallResult
  | 0, c => (c, 0, [])
  | n + 1, c =>
    let s := getCachedPriceData ttl now c
    let rest := priceCalls ttl now n s.1
    (rest.1, (if s.2.2 then 1 else 0) + rest.2.1, s.2.1 :: rest.2.2)

/-! ## Status aggregator (`app.get("/api/status")`, `src/server.js` 112-178) -/

/-- The JSON body sent by the status endpoint on success. -/
structure StatusSnapshot where
  timestamp : Nat
  priceUsd : JSValue
  priceChange24h : JSValue
  marketCapUsd : JSValue
  marketCapChange24h : JSValue
  marketCapChangeUsd : JSValue
  circulatingSupply : JSValue
  height : JSValue
  mempoolSize : JSValue
  valuePools : ValuePools

/-- The handler's HTTP outcome: `200` with a snapshot, or `500` with
the fixed error body. -/
inductive HandlerResult where
  | ok : StatusSnapshot → HandlerResult
  | serverError : JSValue → HandlerResult

/-- The fixed error body carrying `upstream_failed`. -/
def upstreamFailedBody : JSValue :=
  JSValue.obj [("error", JSValue.str "upstream_failed")]

/-- Source expression `Array.isArray(priceData) ? priceData[0] ?? null : priceData?.zcash ?? null`. -/
def priceEntryOf (priceData : JSValue) : JSValue :=
  match priceData with
  | JSValue.arr xs => jsNullish (xs.headD JSValue.undefined) JSValue.null
  | _ => jsNullish (optGetProp priceData "zcash") JSValue.null

/-- Source expression `sanitizeNumber(priceEntry?.current_price ?? priceEntry?.usd)`. -/
def priceUsdOf (e : JSValue) : JSValue :=
  sanitizeNumber (jsNullish (optGetProp e "current_price") (optGetProp e "usd"))

/-- Source expression `sanitizeNumber(priceEntry?.price_change_percentage_24h ?? priceEntry?.usd_24h_change)`. -/
def priceChange24hOf (e : JSValue) : JSValue :=
  sanitizeNumber (jsNullish (optGetProp e "price_change_percentage_24h")
    (optGetProp e "usd_24h_change"))

/-- Source expression `sanitizeNumber(priceEntry?.market_cap ?? priceEntry?.usd_market_cap)`. -/
def marketCapUsdOf (e : JSValue) : JSValue :=
  sanitizeNumber (jsNullish (optGetProp e "market_cap") (optGetProp e "usd_market_cap"))

/-- Source expression `sanitizeNumber(priceEntry?.market_cap_change_percentage_24h ?? null)`. -/
def marketCapChange24hOf (e : JSValue) : JSValue :=
  sanitizeNumber (jsNullish (optGetProp e "market_cap_change_percentage_24h") JSValue.null)

/-- Source expression `sanitizeNumber(priceEntry?.market_cap_change_24h ?? null)`. -/
def marketCapChangeUsdOf (e : JSValue) : JSValue :=
  sanitizeNumber (jsNullish (optGetProp e "market_cap_change_24h") JSValue.null)

/-- Source expression `sanitizeNumber(priceEntry?.circulating_supply ?? null)`. -/
def circulatingSupplyOf (e : JSValue) : JSValue :=
  sanitizeNumber (jsNullish (optGetProp e "circulating_supply") JSValue.null)

/-- Source expression `infoData?.blocks ?? infoData?.blockchain?.blocks ?? infoData?.estimatedheight ?? null`. -/
def heightOf (infoData : JSValue) : JSValue :=
  jsNullish (optGetProp infoData "blocks")
    (jsNullish (optGetProp (optGetProp infoData "blockchain") "blocks")
      (jsNullish (optGetProp infoData "estimatedheight") JSValue.null))

/-- Lines 152-160: an array contributes its length; a (truthy,
non-array) object contributes `.size ?? .length ?? 0`; anything else
contributes `0`. -/
def mempoolSizeOf (mempoolData : JSValue) : JSValue :=
  match mempoolData with
  | JSValue.arr xs => JSValue.num (JSNum.fin (mkRat xs.length 1))
  | JSValue.obj fs =>
    jsNullish (lookupField fs "size")
      (jsNullish (lookupField fs "length") (JSValue.num (JSNum.fin 0)))
  | _ => JSValue.num (JSNum.fin 0)

/-- The body of the `try` block once the three upstream results are in
hand: builds the snapshot, propagating the TypeError that
`extractValuePools` can throw. -/
def snapshotOf (priceData infoData mempoolData : JSValue) (ts : Nat) :
    Except String StatusSnapshot :=
  let e := priceEntryOf priceData
  match extractValuePools infoData (circulatingSupplyOf e) with
  | .error err => .error err
  | .ok pools =>
    .ok { timestamp := ts
          priceUsd := priceUsdOf e
          priceChange24h := priceChange24hOf e
          marketCapUsd := marketCapUsdOf e
          marketCapChange24h := marketCapChange24hOf e
          marketCapChangeUsd := marketCapChangeUsdOf e
          circulatingSupply := circulatingSupplyOf e
          height := heightOf infoData
          mempoolSize := mempoolSizeOf mempoolData
          valuePools := pools }

/-- Source expression `.catch(() => null)` applied to the mempool fetch. -/
def mempoolDataOf (mempoolRes : Except String JSValue) : JSValue :=
  match mempoolRes with
  | .ok v => v
  | .error _ => JSValue.null

/-- The `/api/status` handler over the settled results of the three
upstream fetches: mempool failure is replaced by `null`
(`.catch(() => null)`); a price or info failure, or a TypeError thrown
while building the snapshot, is caught and answered with
`500 {"error":"upstream_failed"}`. -/
def statusHandler (priceRes infoRes mempoolRes : Except String JSValue)
    (ts : Nat) : HandlerResult :=
  match priceRes, infoRes with
  | .ok priceData, .ok infoData =>
    match snapshotOf priceData infoData (mempoolDataOf mempoolRes) ts with
    | .ok snap => HandlerResult.ok snap
    | .error _ => HandlerResult.serverError upstreamFailedBody
  | .error _, _ => HandlerResult.serverError upstreamFailedBody
  | _, .error _ => HandlerResult.serverError upstreamFailedBody

/-- Whether the handler answered `200`. -/
def isOkResult : HandlerResult → Bool
  | .ok _ => true
  | .serverError _ => false

/-! ## Concrete upstream payloads used as test vectors -/

/-- A value-pool record `{id, chainValue}` with a numeric chain value. -/
def poolRec (id : String) (v : ℚ) : JSValue :=
  JSValue.obj [("id", JSValue.str id), ("chainValue", JSValue.num (JSNum.fin v))]

/-- Info payload of the spec's inference example:
`transparent=0, sprout=1, sapling=2, orchard=3, lockbox=4`. -/
def inferenceExampleInfo : JSValue :=
  JSValue.obj [("valuePools", JSValue.arr
    [poolRec "transparent" 0, poolRec "sprout" 1, poolRec "sapling" 2,
     poolRec "orchard" 3, poolRec "lockbox" 4])]

/-- Info payload of the spec's non-inference example:
`transparent=100, sprout=1, sapling=2, orchard=3, lockbox=4`. -/
def nonInferenceExampleInfo : JSValue :=
  JSValue.obj [("valuePools", JSValue.arr
    [poolRec "transparent" 100, poolRec "sprout" 1, poolRec "sapling" 2,
     poolRec "orchard" 3, poolRec "lockbox" 4])]

/-- Info payload whose only pool record is a negative transparent pool. -/
def negTransparentInfo : JSValue :=
  JSValue.obj [("valuePools", JSValue.arr [poolRec "transparent" (-5)])]

/-- The record the reconciler returns on `negTransparentInfo` with a
`null` circulating supply. -/
def negPoolsRecord : ValuePools :=
  ⟨JSNum.fin (-5), JSNum.fin 0, JSNum.fin 0, JSNum.fin 0, JSNum.fin 0,
    JSNum.fin 0, JSNum.fin (-5)⟩

/-- Info payload whose sprout record carries a non-numeric chain value. -/
def nanSproutInfo : JSValue :=
  JSValue.obj [("valuePools", JSValue.arr
    [JSValue.obj [("id", JSValue.str "sprout"), ("chainValue", JSValue.str "abc")]])]

/-- Info payload whose `valuePools` list contains a `null` entry
(`p.id` throws a TypeError on it). -/
def nullEntryPoolInfo : JSValue :=
  JSValue.obj [("valuePools", JSValue.arr [JSValue.null])]

/-- Info payload whose `blocks` field is a numeric string. -/
def stringHeightInfo : JSValue :=
  JSValue.obj [("blocks", JSValue.str "800000")]

/-- The all-zero pool record. -/
def zeroPools : ValuePools :=
  ⟨JSNum.fin 0, JSNum.fin 0, JSNum.fin 0, JSNum.fin 0, JSNum.fin 0,
    JSNum.fin 0, JSNum.fin 0⟩

/-- The snapshot the handler assembles from the price payload `p`, the
info payload `i`, the (already defaulted) mempool payload `m`, the
timestamp and the reconciled pools. -/
def snapshotRecordOf (p i m : JSValue) (ts : Nat) (pools : ValuePools) :
    StatusSnapshot :=
  { timestamp := ts
    priceUsd := priceUsdOf (priceEntryOf p)
    priceChange24h := priceChange24hOf (priceEntryOf p)
    marketCapUsd := marketCapUsdOf (priceEntryOf p)
    marketCapChange24h := marketCapChange24hOf (priceEntryOf p)
    marketCapChangeUsd := marketCapChangeUsdOf (priceEntryOf p)
    circulatingSupply := circulatingSupplyOf (priceEntryOf p)
    height := heightOf i
    mempoolSize := mempoolSizeOf m
    valuePools := pools }

end ZecTotem

namespace ZecTotem

/-! ## Helper lemmas -/

/-- Inversion of `extractValuePools`: a successful result is
`reconcileNums` applied to the five successfully extracted pool values. -/
theorem extractValuePools_ok_elim {info circ : JSValue} {r : ValuePools}
    (h : extractValuePools info circ = Except.ok r) :
    ∃ t sp sa orc lb,
      findPool (poolsOf info) "transparent" = Except.ok t ∧
      findPool (poolsOf info) "sprout" = Except.ok sp ∧
      findPool (poolsOf info) "sapling" = Except.ok sa ∧
      findPool (poolsOf info) "orchard" = Except.ok orc ∧
      findPool (poolsOf info) "lockbox" = Except.ok lb ∧
      r = reconcileNums t sp sa orc lb circ := by
  unfold extractValuePools at h
  rcases hT : findPool (poolsOf info) "transparent" with _ | t <;>
    rcases hSp : findPool (poolsOf info) "sprout" with _ | sp <;>
      rcases hSa : findPool (poolsOf info) "sapling" with _ | sa <;>
        rcases hOrc : findPool (poolsOf info) "orchard" with _ | orc <;>
          rcases hLb : findPool (poolsOf info) "lockbox" with _ | lb <;>
            simp only [hT, hSp, hSa, hOrc, hLb] at h <;>
              first
                | exact Except.noConfusion h
                | exact ⟨t, sp, sa, orc, lb, rfl, rfl, rfl, rfl, rfl,
                    ((Except.ok.injEq _ _).mp h).symm⟩

/-- Function `sanitizeNumber` always yields a finite number or `null`. -/
theorem sanitize_finiteOrNull (v : JSValue) :
    finiteOrNull (sanitizeNumber v) = true := by
  cases v with
  | null => rfl
  | undefined => rfl
  | num n =>
    simp only [sanitizeNumber]
    cases hn : n.isFinite <;> simp [finiteOrNull, hn]
  | bool b =>
    simp only [sanitizeNumber]
    cases hn : (jsToNumber (JSValue.bool b)).isFinite <;> simp [finiteOrNull, hn]
  | str s =>
    simp only [sanitizeNumber]
    cases hn : (jsToNumber (JSValue.str s)).isFinite <;> simp [finiteOrNull, hn]
  | arr xs =>
    simp only [sanitizeNumber]
    cases hn : (jsToNumber (JSValue.arr xs)).isFinite <;> simp [finiteOrNull, hn]
  | obj fs =>
    simp only [sanitizeNumber]
    cases hn : (jsToNumber (JSValue.obj fs)).isFinite <;> simp [finiteOrNull, hn]

/-- The sanitized transparent value after the inference branch. -/
theorem sanitizedTransparent_eq (t sp sa orc lb : JSNum) (circ : JSValue) :
    sanitizedTransparent t sp sa orc lb circ =
      (if (inferTransparent t sp sa orc lb circ).isFinite
       then inferTransparent t sp sa orc lb circ else JSNum.fin 0) := by
  unfold sanitizedTransparent sanitizeNumber
  cases hn : (inferTransparent t sp sa orc lb circ).isFinite <;> simp [hn]

/-- The transparent field of the reconciled record is always finite. -/
theorem sanitizedTransparent_isFinite (t sp sa orc lb : JSNum) (circ : JSValue) :
    (sanitizedTransparent t sp sa orc lb circ).isFinite = true := by
  rw [sanitizedTransparent_eq]
  cases hn : (inferTransparent t sp sa orc lb circ).isFinite with
  | false => simp [hn, JSNum.isFinite]
  | true => simp [hn]

/-! ## Claims about the value-pool reconciler -/

/-- C9: for every input to the reconciler (any info payload and any
circulatingSupply), the returned `shielded` field equals exactly the
sum of the returned `sprout`, `sapling`, and `orchard` fields. -/
theorem C9_shielded_sum (info circ : JSValue) (r : ValuePools)
    (h : extractValuePools info circ = Except.ok r) :
    r.shielded = (r.sprout.add r.sapling).add r.orchard := by
  obtain ⟨t, sp, sa, orc, lb, _, _, _, _, _, hr⟩ := extractValuePools_ok_elim h
  subst hr
  rfl

/-- Witness for C9 at a concrete payload. -/
theorem C9_shielded_sum_witness :
    (⟨JSNum.fin 0, JSNum.fin 7, JSNum.fin 8, JSNum.fin 0, JSNum.fin 0,
      JSNum.fin 15, JSNum.fin 15⟩ : ValuePools).shielded =
      ((⟨JSNum.fin 0, JSNum.fin 7, JSNum.fin 8, JSNum.fin 0, JSNum.fin 0,
        JSNum.fin 15, JSNum.fin 15⟩ : ValuePools).sprout.add
        (⟨JSNum.fin 0, JSNum.fin 7, JSNum.fin 8, JSNum.fin 0, JSNum.fin 0,
          JSNum.fin 15, JSNum.fin 15⟩ : ValuePools).sapling).add
        (⟨JSNum.fin 0, JSNum.fin 7, JSNum.fin 8, JSNum.fin 0, JSNum.fin 0,
          JSNum.fin 15, JSNum.fin 15⟩ : ValuePools).orchard :=
  C9_shielded_sum
    (JSValue.obj [("valuePools", JSValue.arr [poolRec "sprout" 7, poolRec "sapling" 8])])
    JSValue.null _ rfl

/-- C10: the reconciler's returned `sprout`, `sapling`, `orchard` and
`lockbox` fields are exactly the extracted values; inference and
sanitization touch only `transparent` (with `shielded`/`totalChain`
derived). -/
theorem C10_pool_frame (info circ : JSValue) (t sp sa orc lb : JSNum)
    (r : ValuePools)
    (h1 : findPool (poolsOf info) "transparent" = Except.ok t)
    (h2 : findPool (poolsOf info) "sprout" = Except.ok sp)
    (h3 : findPool (poolsOf info) "sapling" = Except.ok sa)
    (h4 : findPool (poolsOf info) "orchard" = Except.ok orc)
    (h5 : findPool (poolsOf info) "lockbox" = Except.ok lb)
    (hr : extractValuePools info circ = Except.ok r) :
    r.sprout = sp ∧ r.sapling = sa ∧ r.orchard = orc ∧ r.lockbox = lb := by
  obtain ⟨t', sp', sa', orc', lb', h1', h2', h3', h4', h5', hr'⟩ :=
    extractValuePools_ok_elim hr
  rw [h2'] at h2; injection h2 with e2
  rw [h3'] at h3; injection h3 with e3
  rw [h4'] at h4; injection h4 with e4
  rw [h5'] at h5; injection h5 with e5
  subst hr'; subst e2; subst e3; subst e4; subst e5
  exact ⟨rfl, rfl, rfl, rfl⟩

/-- Witness for C10 at a concrete payload. -/
theorem C10_pool_frame_witness :
    (JSNum.fin 11 = JSNum.fin 11 ∧ JSNum.fin 12 = JSNum.fin 12 ∧
     JSNum.fin 13 = JSNum.fin 13 ∧ JSNum.fin 14 = JSNum.fin 14) := by
  have h := C10_pool_frame
    (JSValue.obj [("valuePools", JSValue.arr
      [poolRec "sprout" 11, poolRec "sapling" 12, poolRec "orchard" 13,
       poolRec "lockbox" 14])])
    JSValue.null (JSNum.fin 0) (JSNum.fin 11) (JSNum.fin 12) (JSNum.fin 13)
    (JSNum.fin 14)
    ⟨JSNum.fin 0, JSNum.fin 11, JSNum.fin 12, JSNum.fin 13, JSNum.fin 14,
      JSNum.fin 36, JSNum.fin 50⟩
    rfl rfl rfl rfl rfl rfl
  exact h

/-- C7: the reconciler's `totalChain` equals `circulatingSupply` when
that argument is a finite number strictly greater than 0, and
otherwise equals `totalFromInfo = transparent + shielded + lockbox`
computed from the extracted pool values; in particular the spec's
non-inference example keeps `transparent=100` and `totalChain=110`. -/
theorem C7_totalChain_rule (info circ : JSValue) (t sp sa orc lb : JSNum)
    (r : ValuePools)
    (h1 : findPool (poolsOf info) "transparent" = Except.ok t)
    (h2 : findPool (poolsOf info) "sprout" = Except.ok sp)
    (h3 : findPool (poolsOf info) "sapling" = Except.ok sa)
    (h4 : findPool (poolsOf info) "orchard" = Except.ok orc)
    (h5 : findPool (poolsOf info) "lockbox" = Except.ok lb)
    (hr : extractValuePools info circ = Except.ok r) :
    (r.totalChain = match circ with
      | JSValue.num (JSNum.fin q) =>
        if 0 < q then JSNum.fin q else (t.add ((sp.add sa).add orc)).add lb
      | _ => (t.add ((sp.add sa).add orc)).add lb) ∧
    extractValuePools nonInferenceExampleInfo JSValue.null =
      Except.ok ⟨JSNum.fin 100, JSNum.fin 1, JSNum.fin 2, JSNum.fin 3,
        JSNum.fin 4, JSNum.fin 6, JSNum.fin 110⟩ := by
  refine ⟨?_, rfl⟩
  obtain ⟨t', sp', sa', orc', lb', h1', h2', h3', h4', h5', hr'⟩ :=
    extractValuePools_ok_elim hr
  rw [h1'] at h1; injection h1 with e1
  rw [h2'] at h2; injection h2 with e2
  rw [h3'] at h3; injection h3 with e3
  rw [h4'] at h4; injection h4 with e4
  rw [h5'] at h5; injection h5 with e5
  subst hr'; subst e1; subst e2; subst e3; subst e4; subst e5
  cases circ with
  | num n =>
    cases n <;> simp [reconcileNums, totalChainOf, totalFromInfoOf, shieldedOf]
  | undefined => simp [reconcileNums, totalChainOf, totalFromInfoOf, shieldedOf]
  | null => simp [reconcileNums, totalChainOf, totalFromInfoOf, shieldedOf]
  | bool b => simp [reconcileNums, totalChainOf, totalFromInfoOf, shieldedOf]
  | str s => simp [reconcileNums, totalChainOf, totalFromInfoOf, shieldedOf]
  | arr xs => simp [reconcileNums, totalChainOf, totalFromInfoOf, shieldedOf]
  | obj fs => simp [reconcileNums, totalChainOf, totalFromInfoOf, shieldedOf]

/-- Witness for C7 at a concrete payload with a positive finite
circulating supply. -/
theorem C7_totalChain_rule_witness :
    ((⟨JSNum.fin 10, JSNum.fin 1, JSNum.fin 2, JSNum.fin 3, JSNum.fin 4,
        JSNum.fin 6, JSNum.fin 20⟩ : ValuePools).totalChain =
      match JSValue.num (JSNum.fin 20) with
      | JSValue.num (JSNum.fin q) =>
        if 0 < q then JSNum.fin q
        else ((JSNum.fin 0).add (((JSNum.fin 1).add (JSNum.fin 2)).add
          (JSNum.fin 3))).add (JSNum.fin 4)
      | _ => ((JSNum.fin 0).add (((JSNum.fin 1).add (JSNum.fin 2)).add
          (JSNum.fin 3))).add (JSNum.fin 4)) ∧
    extractValuePools nonInferenceExampleInfo JSValue.null =
      Except.ok ⟨JSNum.fin 100, JSNum.fin 1, JSNum.fin 2, JSNum.fin 3,
        JSNum.fin 4, JSNum.fin 6, JSNum.fin 110⟩ :=
  C7_totalChain_rule inferenceExampleInfo (JSValue.num (JSNum.fin 20))
    (JSNum.fin 0) (JSNum.fin 1) (JSNum.fin 2) (JSNum.fin 3) (JSNum.fin 4)
    ⟨JSNum.fin 10, JSNum.fin 1, JSNum.fin 2, JSNum.fin 3, JSNum.fin 4,
      JSNum.fin 6, JSNum.fin 20⟩
    rfl rfl rfl rfl rfl rfl

/-- C2 as stated is false: with the single pool record
`transparent = -5` and `circulatingSupply = null`, the extracted
transparent is negative, `totalChain = -5` is finite, the inferred
value `-5` is rejected, and the returned transparent is `-5`, not `0`. -/
theorem C2_counterexample :
    extractValuePools negTransparentInfo JSValue.null = Except.ok negPoolsRecord ∧
    negPoolsRecord.transparent ≠ JSNum.fin 0 := by
  refine ⟨rfl, ?_⟩
  intro h
  exact absurd (JSNum.fin.inj h) (by norm_num)

/-- C2 amended: when the extracted transparent is zero, missing
(falsy) or `<= 0` and `totalChain` is finite, the reconciler accepts
`totalChain - shielded - lockbox` only if it is finite and strictly
positive; otherwise transparent KEEPS its extracted value (sanitized,
non-finite becoming 0) — a negative extracted transparent stays
negative.  The spec's inference example holds. -/
theorem C2_inference_amended (info circ : JSValue) (t sp sa orc lb : JSNum)
    (r : ValuePools)
    (h1 : findPool (poolsOf info) "transparent" = Except.ok t)
    (h2 : findPool (poolsOf info) "sprout" = Except.ok sp)
    (h3 : findPool (poolsOf info) "sapling" = Except.ok sa)
    (h4 : findPool (poolsOf info) "orchard" = Except.ok orc)
    (h5 : findPool (poolsOf info) "lockbox" = Except.ok lb)
    (hr : extractValuePools info circ = Except.ok r)
    (hcond : (jsNumFalsy t || JSNum.le t (JSNum.fin 0)) = true)
    (hfin : r.totalChain.isFinite = true) :
    (r.transparent =
      if ((r.totalChain.sub ((sp.add sa).add orc)).sub lb).isFinite &&
          JSNum.lt (JSNum.fin 0) ((r.totalChain.sub ((sp.add sa).add orc)).sub lb)
      then (r.totalChain.sub ((sp.add sa).add orc)).sub lb
      else (if t.isFinite then t else JSNum.fin 0)) ∧
    extractValuePools inferenceExampleInfo (JSValue.num (JSNum.fin 20)) =
      Except.ok ⟨JSNum.fin 10, JSNum.fin 1, JSNum.fin 2, JSNum.fin 3,
        JSNum.fin 4, JSNum.fin 6, JSNum.fin 20⟩ := by
  refine ⟨?_, rfl⟩
  obtain ⟨t', sp', sa', orc', lb', h1', h2', h3', h4', h5', hr'⟩ :=
    extractValuePools_ok_elim hr
  rw [h1'] at h1; injection h1 with e1
  rw [h2'] at h2; injection h2 with e2
  rw [h3'] at h3; injection h3 with e3
  rw [h4'] at h4; injection h4 with e4
  rw [h5'] at h5; injection h5 with e5
  subst hr'; subst e1; subst e2; subst e3; subst e4; subst e5
  have htc : (reconcileNums t' sp' sa' orc' lb' circ).totalChain =
      totalChainOf t' sp' sa' orc' lb' circ := rfl
  rw [htc] at hfin
  have hsh : (sp'.add sa').add orc' = shieldedOf sp' sa' orc' := rfl
  have hid : ((totalChainOf t' sp' sa' orc' lb' circ).sub
      (shieldedOf sp' sa' orc')).sub lb' = inferredOf t' sp' sa' orc' lb' circ := rfl
  rw [htc, hsh, hid]
  show sanitizedTransparent t' sp' sa' orc' lb' circ = _
  rw [sanitizedTransparent_eq]
  unfold inferTransparent
  rw [hcond, hfin]
  simp only [Bool.true_and, if_true]
  cases hacc : ((inferredOf t' sp' sa' orc' lb' circ).isFinite &&
      JSNum.lt (JSNum.fin 0) (inferredOf t' sp' sa' orc' lb' circ)) with
  | true =>
    have hfi : (inferredOf t' sp' sa' orc' lb' circ).isFinite = true :=
      (Bool.and_eq_true_iff.mp hacc).1
    simp [hacc, hfi]
  | false => simp [hacc]

/-- Witness for C2's amended statement: extracted transparent `-5`
with a finite negative totalChain keeps the value `-5`. -/
theorem C2_inference_amended_witness :
    (negPoolsRecord.transparent =
      if ((negPoolsRecord.totalChain.sub
            (((JSNum.fin 0).add (JSNum.fin 0)).add (JSNum.fin 0))).sub
            (JSNum.fin 0)).isFinite &&
          JSNum.lt (JSNum.fin 0)
            ((negPoolsRecord.totalChain.sub
              (((JSNum.fin 0).add (JSNum.fin 0)).add (JSNum.fin 0))).sub
              (JSNum.fin 0))
      then (negPoolsRecord.totalChain.sub
            (((JSNum.fin 0).add (JSNum.fin 0)).add (JSNum.fin 0))).sub
            (JSNum.fin 0)
      else (if (JSNum.fin (-5)).isFinite then JSNum.fin (-5) else JSNum.fin 0)) ∧
    extractValuePools inferenceExampleInfo (JSValue.num (JSNum.fin 20)) =
      Except.ok ⟨JSNum.fin 10, JSNum.fin 1, JSNum.fin 2, JSNum.fin 3,
        JSNum.fin 4, JSNum.fin 6, JSNum.fin 20⟩ :=
  C2_inference_amended negTransparentInfo JSValue.null
    (JSNum.fin (-5)) (JSNum.fin 0) (JSNum.fin 0) (JSNum.fin 0) (JSNum.fin 0)
    negPoolsRecord rfl rfl rfl rfl rfl rfl (by decide) (by decide)

/-- C3 as stated is false: a pool record whose `chainValue` is the
non-numeric string `"abc"` is extracted as `Number("abc") = NaN`, not
`0`, and that NaN reaches the returned record's `sprout`, `shielded`
and `totalChain` fields. -/
theorem C3_counterexample :
    findPool (poolsOf nanSproutInfo) "sprout" = Except.ok JSNum.nan ∧
    extractValuePools nanSproutInfo JSValue.null =
      Except.ok ⟨JSNum.fin 0, JSNum.nan, JSNum.fin 0, JSNum.fin 0, JSNum.fin 0,
        JSNum.nan, JSNum.nan⟩ ∧
    JSNum.nan ≠ JSNum.fin 0 := ⟨rfl, rfl, by decide⟩

/-- C3 amended: per-pool extraction yields
`Number(record.chainValue ?? 0)`: `0` when no record matches, the
numeric value when the matching record's chain value is a finite
number, but NaN (not `0`) when the chain value does not coerce to a
number (e.g. a plain object, or a non-numeric string as in the
counterexample). -/
theorem C3_extraction_amended (vp : List JSValue) (id : String) :
    (jsFind vp id = Except.ok none → findPool vp id = Except.ok (JSNum.fin 0)) ∧
    (∀ p q, jsFind vp id = Except.ok (some p) →
      optGetProp p "chainValue" = JSValue.num (JSNum.fin q) →
      findPool vp id = Except.ok (JSNum.fin q)) ∧
    (∀ p fs, jsFind vp id = Except.ok (some p) →
      optGetProp p "chainValue" = JSValue.obj fs →
      findPool vp id = Except.ok JSNum.nan) := by
  refine ⟨?_, ?_, ?_⟩
  · intro h
    simp [findPool, h, jsNullish, jsToNumber]
  · intro p q h hc
    simp [findPool, h, hc, jsNullish, jsToNumber]
  · intro p fs h hc
    simp [findPool, h, hc, jsNullish, jsToNumber]

/-- Witness for C3's amended statement on a concrete pool list. -/
theorem C3_extraction_amended_witness :
    findPool [poolRec "sapling" 7] "sapling" = Except.ok (JSNum.fin 7) :=
  (C3_extraction_amended [poolRec "sapling" 7] "sapling").2.1
    (poolRec "sapling" 7) 7 rfl rfl

/-! ## Claims about the status aggregator -/

/-- Inversion of `statusHandler`: a `200` answer means both required
upstreams succeeded, the reconciler succeeded, and the snapshot is the
assembled record. -/
theorem statusHandler_ok_elim {priceRes infoRes mempoolRes : Except String JSValue}
    {ts : Nat} {snap : StatusSnapshot}
    (h : statusHandler priceRes infoRes mempoolRes ts = HandlerResult.ok snap) :
    ∃ p i pools,
      priceRes = Except.ok p ∧ infoRes = Except.ok i ∧
      extractValuePools i (circulatingSupplyOf (priceEntryOf p)) = Except.ok pools ∧
      snap = snapshotRecordOf p i (mempoolDataOf mempoolRes) ts pools := by
  cases priceRes with
  | error e => exact absurd h (by simp [statusHandler])
  | ok p =>
    cases infoRes with
    | error e => exact absurd h (by simp [statusHandler])
    | ok i =>
      unfold statusHandler snapshotOf at h
      rcases hE : extractValuePools i (circulatingSupplyOf (priceEntryOf p))
        with e | pools <;> simp only [hE] at h
      · exact HandlerResult.noConfusion h
      · exact ⟨p, i, pools, rfl, rfl, hE,
          ((HandlerResult.ok.injEq _ _).mp h).symm⟩

/-- C1 as stated is false: the `height` field is copied from the info
payload without sanitization, so a payload with `blocks: "800000"`
puts the string `"800000"` — neither a finite number nor null — into
the snapshot even though both required upstreams succeeded. -/
theorem C1_counterexample :
    statusHandler (Except.ok (JSValue.arr [])) (Except.ok stringHeightInfo)
        (Except.error "mempool down") 0 =
      HandlerResult.ok
        { timestamp := 0
          priceUsd := JSValue.null
          priceChange24h := JSValue.null
          marketCapUsd := JSValue.null
          marketCapChange24h := JSValue.null
          marketCapChangeUsd := JSValue.null
          circulatingSupply := JSValue.null
          height := JSValue.str "800000"
          mempoolSize := JSValue.num (JSNum.fin 0)
          valuePools := zeroPools } ∧
    finiteOrNull (JSValue.str "800000") = false := ⟨rfl, rfl⟩

/-- C1 amended: in every `200` snapshot, the six price-derived fields
(`priceUsd`, `priceChange24h`, `marketCapUsd`, `marketCapChange24h`,
`marketCapChangeUsd`, `circulatingSupply`) and the pools'
`transparent` field are finite-or-null; `height`, `mempoolSize` and
the remaining pool fields are passed through unsanitized and carry no
such guarantee (see the counterexample). -/
theorem C1_sanitized_amended (priceRes infoRes mempoolRes : Except String JSValue)
    (ts : Nat) (snap : StatusSnapshot)
    (h : statusHandler priceRes infoRes mempoolRes ts = HandlerResult.ok snap) :
    finiteOrNull snap.priceUsd = true ∧
    finiteOrNull snap.priceChange24h = true ∧
    finiteOrNull snap.marketCapUsd = true ∧
    finiteOrNull snap.marketCapChange24h = true ∧
    finiteOrNull snap.marketCapChangeUsd = true ∧
    finiteOrNull snap.circulatingSupply = true ∧
    snap.valuePools.transparent.isFinite = true := by
  obtain ⟨p, i, pools, hp, hi, hE, hs⟩ := statusHandler_ok_elim h
  obtain ⟨t, sp, sa, orc, lb, _, _, _, _, _, hpools⟩ :=
    extractValuePools_ok_elim hE
  subst hs; subst hpools
  exact ⟨sanitize_finiteOrNull _, sanitize_finiteOrNull _,
    sanitize_finiteOrNull _, sanitize_finiteOrNull _, sanitize_finiteOrNull _,
    sanitize_finiteOrNull _, sanitizedTransparent_isFinite t sp sa orc lb _⟩

/-- Witness for C1's amended statement at a concrete request. -/
theorem C1_sanitized_amended_witness :
    finiteOrNull JSValue.null = true ∧
    finiteOrNull JSValue.null = true ∧
    finiteOrNull JSValue.null = true ∧
    finiteOrNull JSValue.null = true ∧
    finiteOrNull JSValue.null = true ∧
    finiteOrNull JSValue.null = true ∧
    (JSNum.fin 0).isFinite = true :=
  C1_sanitized_amended (Except.ok (JSValue.arr [])) (Except.ok (JSValue.obj []))
    (Except.ok (JSValue.arr [])) 1
    (snapshotRecordOf (JSValue.arr []) (JSValue.obj []) (JSValue.arr []) 1 zeroPools)
    rfl

/-- C8 as stated is false: even with both required upstreams
succeeding, a `null` entry in the info payload's `valuePools` list
makes `p.id` throw inside the reconciler, and the catch block answers
`500 {"error":"upstream_failed"}` instead of `200`. -/
theorem C8_counterexample :
    statusHandler (Except.ok (JSValue.arr [])) (Except.ok nullEntryPoolInfo)
        (Except.error "mempool down") 0 =
      HandlerResult.serverError upstreamFailedBody ∧
    isOkResult (HandlerResult.serverError upstreamFailedBody) = false :=
  ⟨rfl, rfl⟩

/-- C8 amended: the mempool outcome never changes the HTTP status; on
mempool failure a successful snapshot carries `mempoolSize = 0`; when
price and info succeed and the reconciler does not throw, the handler
answers `200` with the assembled snapshot; a price failure, an info
failure, or a TypeError thrown by the reconciler (e.g. a nullish
`valuePools` entry) each yield `500 {"error":"upstream_failed"}`. -/
theorem C8_mempool_best_effort :
    (∀ p i m₁ m₂ ts, isOkResult (statusHandler (Except.ok p) (Except.ok i) m₁ ts) =
      isOkResult (statusHandler (Except.ok p) (Except.ok i) m₂ ts)) ∧
    (∀ p i e ts snap,
      statusHandler (Except.ok p) (Except.ok i) (Except.error e) ts =
        HandlerResult.ok snap →
      snap.mempoolSize = JSValue.num (JSNum.fin 0)) ∧
    (∀ p i e ts pools,
      extractValuePools i (circulatingSupplyOf (priceEntryOf p)) = Except.ok pools →
      statusHandler (Except.ok p) (Except.ok i) (Except.error e) ts =
        HandlerResult.ok (snapshotRecordOf p i JSValue.null ts pools)) ∧
    (∀ e ir m ts, statusHandler (Except.error e) ir m ts =
      HandlerResult.serverError upstreamFailedBody) ∧
    (∀ p e m ts, statusHandler (Except.ok p) (Except.error e) m ts =
      HandlerResult.serverError upstreamFailedBody) ∧
    (∀ p i m ts err,
      extractValuePools i (circulatingSupplyOf (priceEntryOf p)) = Except.error err →
      statusHandler (Except.ok p) (Except.ok i) m ts =
        HandlerResult.serverError upstreamFailedBody) := by
  refine ⟨?_, ?_, ?_, ?_, ?_, ?_⟩
  · intro p i m₁ m₂ ts
    unfold statusHandler snapshotOf
    rcases hE : extractValuePools i (circulatingSupplyOf (priceEntryOf p))
      with e | pools <;> simp only [hE] <;> rfl
  · intro p i e ts snap h
    obtain ⟨p', i', pools, hp, hi, hE, hs⟩ := statusHandler_ok_elim h
    subst hs
    rfl
  · intro p i e ts pools hE
    unfold statusHandler snapshotOf
    simp only [hE]
    rfl
  · intro e ir m ts
    cases ir <;> rfl
  · intro p e m ts
    rfl
  · intro p i m ts err hE
    unfold statusHandler snapshotOf
    simp only [hE]

/-- Witness for C8's amended statement at a concrete request. -/
theorem C8_mempool_best_effort_witness :
    statusHandler (Except.ok (JSValue.arr [])) (Except.ok (JSValue.obj []))
        (Except.error "mempool down") 3 =
      HandlerResult.ok
        (snapshotRecordOf (JSValue.arr []) (JSValue.obj []) JSValue.null 3 zeroPools) :=
  C8_mempool_best_effort.2.2.1 (JSValue.arr []) (JSValue.obj []) "mempool down" 3
    zeroPools rfl

/-! ## Claims about the price cache -/

/-- Every call arriving while a fetch is in flight (and the entry is
not a fresh truthy hit) attaches to that promise: no request is
issued, the waiter count grows, and the cache state is otherwise
unchanged. -/
theorem priceCalls_attached (ttl now : Nat) (n : Nat) (c : PriceCache)
    (hstale : ¬(truthy c.data = true ∧ now - c.fetchedAt ≤ ttl))
    (hp : c.promise = true) :
    priceCalls ttl now n c =
      ({ c with waiters := c.waiters + n }, 0,
        List.replicate n CallResult.attached) := by
  induction n generalizing c with
  | zero => simp [priceCalls]
  | succ k ih =>
    have hc : getCachedPriceData ttl now c =
        ({ c with waiters := c.waiters + 1 }, CallResult.attached, false) := by
      unfold getCachedPriceData
      rw [if_neg hstale, if_pos hp]
    have hrest := ih { c with waiters := c.waiters + 1 } hstale hp
    unfold priceCalls
    rw [hc]
    simp only []
    rw [hrest]
    simp [List.replicate_succ, Nat.add_assoc, Nat.add_comm 1 k]

/-- C4: while the entry is stale (truthy stored data older than the
TTL, no fetch in flight), `n ≥ 2` concurrent callers issue exactly one
upstream request; every caller attaches to the same single promise; a
further call while that fetch is in flight issues no request (at most
one in-flight fetch); and the one settlement every waiter receives is
the same resolved value (the fresh value on success, the stored value
on failure). -/
theorem C4_single_flight (ttl now t : Nat) (res : Except String JSValue)
    (c : PriceCache) (n : Nat)
    (hp : c.promise = false) (hw : c.waiters = 0) (hd : truthy c.data = true)
    (hstale : ttl < now - c.fetchedAt) (hn : 2 ≤ n) :
    (priceCalls ttl now n c).2.1 = 1 ∧
    (priceCalls ttl now n c).2.2 = List.replicate n CallResult.attached ∧
    (priceCalls ttl now n c).1.promise = true ∧
    (priceCalls ttl now n c).1.waiters = n ∧
    (getCachedPriceData ttl now (priceCalls ttl now n c).1).2.2 = false ∧
    (priceFetchSettle t res (priceCalls ttl now n c).1).2 =
      Except.ok (settledValue res c.data) := by
  cases n with
  | zero => omega
  | succ k =>
    have hstale' : ¬(truthy c.data = true ∧ now - c.fetchedAt ≤ ttl) := by
      rintro ⟨_, hle⟩
      omega
    have hfirst : getCachedPriceData ttl now c =
        ({ c with promise := true, waiters := c.waiters + 1 },
          CallResult.attached, true) := by
      unfold getCachedPriceData
      rw [if_neg hstale']
      simp [hp]
    have hrest := priceCalls_attached ttl now k
      { c with promise := true, waiters := c.waiters + 1 } hstale' rfl
    have hcalls : priceCalls ttl now (k + 1) c =
        ({ c with promise := true, waiters := c.waiters + 1 + k }, 1,
          List.replicate (k + 1) CallResult.attached) := by
      unfold priceCalls
      rw [hfirst]
      simp only []
      rw [hrest]
      simp [List.replicate_succ]
    refine ⟨by rw [hcalls], by rw [hcalls], by rw [hcalls], ?_, ?_, ?_⟩
    · rw [hcalls]
      simp [hw, Nat.add_comm 1 k]
    · rw [hcalls]
      unfold getCachedPriceData
      rw [if_neg hstale']
      rfl
    · rw [hcalls]
      cases res with
      | ok v => rfl
      | error e =>
        unfold priceFetchSettle
        simp [hd, settledValue]

/-- Witness for C4 at a concrete stale cache and two callers. -/
theorem C4_single_flight_witness :
    (priceCalls 1000 2000 2 ⟨JSValue.num (JSNum.fin 6), 500, false, 0⟩).2.1 = 1 ∧
    (priceCalls 1000 2000 2 ⟨JSValue.num (JSNum.fin 6), 500, false, 0⟩).2.2 =
      List.replicate 2 CallResult.attached ∧
    (priceCalls 1000 2000 2 ⟨JSValue.num (JSNum.fin 6), 500, false, 0⟩).1.promise = true ∧
    (priceCalls 1000 2000 2 ⟨JSValue.num (JSNum.fin 6), 500, false, 0⟩).1.waiters = 2 ∧
    (getCachedPriceData 1000 2000
      (priceCalls 1000 2000 2 ⟨JSValue.num (JSNum.fin 6), 500, false, 0⟩).1).2.2 = false ∧
    (priceFetchSettle 2100 (Except.ok (JSValue.num (JSNum.fin 9)))
      (priceCalls 1000 2000 2 ⟨JSValue.num (JSNum.fin 6), 500, false, 0⟩).1).2 =
      Except.ok (settledValue (Except.ok (JSValue.num (JSNum.fin 9)))
        (JSValue.num (JSNum.fin 6))) :=
  C4_single_flight 1000 2000 2100 (Except.ok (JSValue.num (JSNum.fin 9)))
    ⟨JSValue.num (JSNum.fin 6), 500, false, 0⟩ 2
    rfl rfl (by decide) (by decide) (by decide)

/-- C5 as stated is false: the cache recognizes "a previous value is
stored" by JS truthiness.  After a first fetch succeeds with the falsy
JSON body `0`, a later failing fetch propagates the error to the
waiters instead of returning the stored value `0`. -/
theorem C5_counterexample :
    (priceFetchSettle 70005 (Except.error "boom")
      (getCachedPriceData 60000 70000
        (priceFetchSettle 5 (Except.ok (JSValue.num (JSNum.fin 0)))
          (getCachedPriceData 60000 0 initialPriceCache).1).1).1).2 =
      Except.error "boom" ∧
    (priceFetchSettle 5 (Except.ok (JSValue.num (JSNum.fin 0)))
      (getCachedPriceData 60000 0 initialPriceCache).1).1.data =
      JSValue.num (JSNum.fin 0) ∧
    (Except.error "boom" : Except String JSValue) ≠
      Except.ok (JSValue.num (JSNum.fin 0)) := by
  refine ⟨rfl, rfl, ?_⟩
  intro h
  cases h

/-- C5 amended: when the upstream fetch fails, the cache returns the
stored value unchanged and keeps `fetchedAt` (the staleness clock is
not reset) provided the stored value is truthy; when the stored value
is falsy — the initial state with no prior success, but also a stored
falsy success such as JSON `0` — the failure propagates to every
waiting caller.  On failure `data` is never modified. -/
theorem C5_stale_fallback_amended (c : PriceCache) (now : Nat) (e : String) :
    (truthy c.data = true →
      priceFetchSettle now (Except.error e) c =
        ({ c with promise := false, waiters := 0 }, Except.ok c.data)) ∧
    (truthy c.data = false →
      (priceFetchSettle now (Except.error e) c).2 = Except.error e) ∧
    (priceFetchSettle now (Except.error e) c).1.fetchedAt = c.fetchedAt ∧
    (priceFetchSettle now (Except.error e) c).1.data = c.data := by
  refine ⟨?_, ?_, ?_, ?_⟩ <;>
    first
      | (intro hd
         unfold priceFetchSettle
         simp [hd])
      | (unfold priceFetchSettle
         cases hd : truthy c.data <;> simp [hd])

/-- Witness for C5's amended statement: failure over a truthy stored
value returns it; failure over the initial state propagates. -/
theorem C5_stale_fallback_amended_witness :
    priceFetchSettle 9 (Except.error "x")
        ⟨JSValue.num (JSNum.fin 2), 4, true, 3⟩ =
      (⟨JSValue.num (JSNum.fin 2), 4, false, 0⟩,
        Except.ok (JSValue.num (JSNum.fin 2))) ∧
    (priceFetchSettle 9 (Except.error "x") ⟨JSValue.null, 4, true, 3⟩).2 =
      Except.error "x" :=
  ⟨(C5_stale_fallback_amended ⟨JSValue.num (JSNum.fin 2), 4, true, 3⟩ 9 "x").1
      (by decide),
    (C5_stale_fallback_amended ⟨JSValue.null, 4, true, 3⟩ 9 "x").2.1 rfl⟩

/-- C6 as stated is false: freshness requires the stored value to be
truthy.  A cache holding the falsy JSON value `0` with age `0 ≤ TTL`
still issues an upstream request instead of returning the stored
value. -/
theorem C6_counterexample :
    getCachedPriceData 60000 100 ⟨JSValue.num (JSNum.fin 0), 100, false, 0⟩ =
      (⟨JSValue.num (JSNum.fin 0), 100, true, 1⟩, CallResult.attached, true) ∧
    100 - 100 ≤ 60000 := ⟨rfl, by decide⟩

/-- C6 amended: for a TRUTHY stored value of age at most the TTL, a
call performs no request and returns the stored value; consequently,
starting from the empty cache, a first call issues one request and,
after it resolves with a truthy value, a second call within the TTL
issues no further request — exactly one request in total. -/
theorem C6_fresh_hit_amended (ttl now t1 t2 : Nat) (c : PriceCache) (v : JSValue)
    (hd : truthy c.data = true) (hfresh : now - c.fetchedAt ≤ ttl)
    (hv : truthy v = true) (hfresh2 : t2 - t1 ≤ ttl) :
    getCachedPriceData ttl now c = (c, CallResult.value c.data, false) ∧
    (getCachedPriceData ttl t1 initialPriceCache).2.2 = true ∧
    (priceFetchSettle t1 (Except.ok v)
      (getCachedPriceData ttl t1 initialPriceCache).1).2 = Except.ok v ∧
    getCachedPriceData ttl t2
        (priceFetchSettle t1 (Except.ok v)
          (getCachedPriceData ttl t1 initialPriceCache).1).1 =
      ((priceFetchSettle t1 (Except.ok v)
          (getCachedPriceData ttl t1 initialPriceCache).1).1,
        CallResult.value v, false) := by
  refine ⟨?_, rfl, rfl, ?_⟩
  · unfold getCachedPriceData
    rw [if_pos ⟨hd, hfresh⟩]
  · show getCachedPriceData ttl t2 ⟨v, t1, false, 0⟩ = (⟨v, t1, false, 0⟩, _, _)
    unfold getCachedPriceData
    rw [if_pos ⟨hv, hfresh2⟩]

/-- Witness for C6's amended statement at concrete times and values. -/
theorem C6_fresh_hit_amended_witness :
    getCachedPriceData 60000 60 ⟨JSValue.num (JSNum.fin 3), 50, false, 0⟩ =
      (⟨JSValue.num (JSNum.fin 3), 50, false, 0⟩,
        CallResult.value (JSValue.num (JSNum.fin 3)), false) ∧
    (getCachedPriceData 60000 10 initialPriceCache).2.2 = true ∧
    (priceFetchSettle 10 (Except.ok (JSValue.num (JSNum.fin 4)))
      (getCachedPriceData 60000 10 initialPriceCache).1).2 =
      Except.ok (JSValue.num (JSNum.fin 4)) ∧
    getCachedPriceData 60000 100
        (priceFetchSettle 10 (Except.ok (JSValue.num (JSNum.fin 4)))
          (getCachedPriceData 60000 10 initialPriceCache).1).1 =
      ((priceFetchSettle 10 (Except.ok (JSValue.num (JSNum.fin 4)))
          (getCachedPriceData 60000 10 initialPriceCache).1).1,
        CallResult.value (JSValue.num (JSNum.fin 4)), false) :=
  C6_fresh_hit_amended 60000 60 10 100
    ⟨JSValue.num (JSNum.fin 3), 50, false, 0⟩ (JSValue.num (JSNum.fin 4))
    (by decide) (by decide) (by decide) (by decide)

end ZecTotem
